import Mathlib

/-!
Verification of the quadruped servo control core
(`examples/QuadrupedControl/QuadrupedServoControl.cpp`).

The development shallowly embeds the staging-buffer transformation
routines, the index transform, the blocking synchronization loops, the
lift-height mapping and the diagnostic printing routines, and proves the
documented properties about them.  `uint8_t` arithmetic is modelled on
`Nat` with explicit `% 256` where the source narrows a wider value into
a `uint8_t` variable; angle arithmetic (C `int`) is modelled on `Int`.
-/

namespace QuadrupedServo

/-! ### Configuration constants

The configuration header `QuadrupedServoConfiguration.h` is not part of
the sources at hand; the constants below are modelled from the spec
(§3 data model and the servo-order comment in the source, lines 39-47):
eight servos, two per leg, pivot channels at the even indices in the
canonical order FrontLeft, BackLeft, BackRight, FrontRight, lift channel
at pivot index + 1, direction codes Forward=0, Left=1, Backward=2,
Right=3, and the side-direction mask selecting the odd direction codes
Left/Right. -/

/-- Modelled from the spec: actuator count is fixed at 8. -/
def NUMBER_OF_SERVOS : Nat := 8

/-- Modelled from the spec: two actuators (pivot, lift) per leg. -/
def SERVOS_PER_LEG : Nat := 2

/-- Modelled from the spec: lift channel index = pivot channel index + 1. -/
def LIFT_SERVO_OFFSET : Nat := 1

/-- Modelled from the spec: canonical front-left pivot slot. -/
def FRONT_LEFT_PIVOT : Nat := 0

/-- Modelled from the spec: canonical back-left pivot slot. -/
def BACK_LEFT_PIVOT : Nat := 2

/-- Modelled from the spec: canonical back-right pivot slot. -/
def BACK_RIGHT_PIVOT : Nat := 4

/-- Modelled from the spec: canonical front-right pivot slot. -/
def FRONT_RIGHT_PIVOT : Nat := 6

/-- Modelled from the spec: canonical front-left lift slot. -/
def FRONT_LEFT_LIFT : Nat := 1

/-- Modelled from the spec: canonical back-left lift slot. -/
def BACK_LEFT_LIFT : Nat := 3

/-- Modelled from the spec: canonical back-right lift slot. -/
def BACK_RIGHT_LIFT : Nat := 5

/-- Modelled from the spec: canonical front-right lift slot. -/
def FRONT_RIGHT_LIFT : Nat := 7

/-- Modelled from the spec: direction code Forward = 0. -/
def MOVE_DIRECTION_FORWARD : Nat := 0

/-- Modelled from the spec: direction code Left = 1. -/
def MOVE_DIRECTION_LEFT : Nat := 1

/-- Modelled from the spec: direction code Backward = 2. -/
def MOVE_DIRECTION_BACKWARD : Nat := 2

/-- Modelled from the spec: direction code Right = 3. -/
def MOVE_DIRECTION_RIGHT : Nat := 3

/-- Modelled from the spec: bit mask distinguishing the side directions
Left (1) and Right (3) — the odd direction codes — from
Forward (0) and Backward (2). -/
def MOVE_DIRECTION_SIDE_MASK : Nat := 0x01

/-- The four canonical pivot roles in source order
(FrontLeft, BackLeft, BackRight, FrontRight). -/
def canonicalPivot : Fin 4 → Nat
  | 0 => FRONT_LEFT_PIVOT
  | 1 => BACK_LEFT_PIVOT
  | 2 => BACK_RIGHT_PIVOT
  | 3 => FRONT_RIGHT_PIVOT

/-! ### Index transform (source lines 139-146 and 241-248) -/

/-- Embeds `getMirrorXorMask` (source lines 139-146): XOR-mask used to mirror a
servo index, `0x2` for a side direction, `0x6` otherwise. -/
def getMirrorXorMask (aDirection : Nat) : Nat :=
  if aDirection &&& MOVE_DIRECTION_SIDE_MASK ≠ 0 then 0x2 else 0x6

/-- Embeds `transformOneServoIndex` (source lines 241-248): rotate the index by
`aDirection * SERVOS_PER_LEG` modulo `NUMBER_OF_SERVOS`, then XOR with
the mirror mask when mirroring is requested. -/
def transformOneServoIndex (aServoIndexToTransform aDirection : Nat)
    (doMirror : Bool) : Nat :=
  let tXorToGetMirroredIndex := if doMirror then getMirrorXorMask aDirection else 0x0
  ((aServoIndexToTransform + aDirection * SERVOS_PER_LEG) % NUMBER_OF_SERVOS) ^^^
    tXorToGetMirroredIndex

/-! ### Posture staging buffer (`sServoNextPositionArray`) -/

/-- The posture staging buffer `sServoNextPositionArray`: one pending
target angle per physical servo index (only indices `0..7` are used). -/
def Buf : Type := Nat → Int

/-- One store `sServoNextPositionArray[i] = v`: unconditional overwrite
of slot `i`. -/
def writeBuf (b : Buf) (i : Nat) (v : Int) : Buf :=
  fun j => if j = i then v else b j

/-- A sequence of stores applied in order (first element written first). -/
def applyWrites (b : Buf) (ws : List (Nat × Int)) : Buf :=
  ws.foldl (fun b p => writeBuf b p.1 p.2) b

/-- The pivot-angle inversion performed when mirroring:
`aFLP = 180 - aFLP` (source lines 162-164 etc.). -/
def mirrorPivotAngle (a : Int) : Int := 180 - a

/-! ### Transformation routines (source lines 148-236)

The routines write the staging buffer; their trailing
`if (aDoMove) synchronizeMoveAllServosAndCheckInputAndWait()` commit
step is the Synchronization Driver, modelled separately below — it
reads the buffer but never writes it, so the buffer effect of the
routines is independent of the `aDoMove` flag. -/

/-- Embeds `transformAndSetAllServos` (source lines 148-192), staging-buffer
effect.  `tIndexToAdd` is a `uint8_t`, hence the `% 256`.  Writes the
four (pivot, lift) pairs in source order FrontLeft, BackLeft,
BackRight, FrontRight. -/
def transformAndSetAllServos (aFLP aBLP aBRP aFRP aFLL aBLL aBRL aFRL : Int)
    (aDirection : Nat) (doMirror : Bool) (b : Buf) : Buf :=
  let tIndexToAdd : Nat := (aDirection * SERVOS_PER_LEG) % 256
  let tXorToGetMirroredIndex : Nat := if doMirror then getMirrorXorMask aDirection else 0x0
  let inv : Int → Int := fun a => if doMirror then mirrorPivotAngle a else a
  let i0 := ((FRONT_LEFT_PIVOT + tIndexToAdd) % NUMBER_OF_SERVOS) ^^^ tXorToGetMirroredIndex
  let b := writeBuf b i0 (inv aFLP)
  let b := writeBuf b (i0 + LIFT_SERVO_OFFSET) aFLL
  let i1 := ((BACK_LEFT_PIVOT + tIndexToAdd) % NUMBER_OF_SERVOS) ^^^ tXorToGetMirroredIndex
  let b := writeBuf b i1 (inv aBLP)
  let b := writeBuf b (i1 + LIFT_SERVO_OFFSET) aBLL
  let i2 := ((BACK_RIGHT_PIVOT + tIndexToAdd) % NUMBER_OF_SERVOS) ^^^ tXorToGetMirroredIndex
  let b := writeBuf b i2 (inv aBRP)
  let b := writeBuf b (i2 + LIFT_SERVO_OFFSET) aBRL
  let i3 := ((FRONT_RIGHT_PIVOT + tIndexToAdd) % NUMBER_OF_SERVOS) ^^^ tXorToGetMirroredIndex
  let b := writeBuf b i3 (inv aFRP)
  let b := writeBuf b (i3 + LIFT_SERVO_OFFSET) aFRL
  b

/-- Embeds `transformAndSetPivotServos` (source lines 197-236), staging-buffer
effect: the reduced-argument path writing only the four pivot slots. -/
def transformAndSetPivotServos (aFLP aBLP aBRP aFRP : Int)
    (aDirection : Nat) (doMirror : Bool) (b : Buf) : Buf :=
  let tIndexToAdd : Nat := (aDirection * SERVOS_PER_LEG) % 256
  let tXorToGetMirroredIndex : Nat := if doMirror then getMirrorXorMask aDirection else 0x0
  let inv : Int → Int := fun a => if doMirror then mirrorPivotAngle a else a
  let i0 := ((FRONT_LEFT_PIVOT + tIndexToAdd) % NUMBER_OF_SERVOS) ^^^ tXorToGetMirroredIndex
  let b := writeBuf b i0 (inv aFLP)
  let i1 := ((BACK_LEFT_PIVOT + tIndexToAdd) % NUMBER_OF_SERVOS) ^^^ tXorToGetMirroredIndex
  let b := writeBuf b i1 (inv aBLP)
  let i2 := ((BACK_RIGHT_PIVOT + tIndexToAdd) % NUMBER_OF_SERVOS) ^^^ tXorToGetMirroredIndex
  let b := writeBuf b i2 (inv aBRP)
  let i3 := ((FRONT_RIGHT_PIVOT + tIndexToAdd) % NUMBER_OF_SERVOS) ^^^ tXorToGetMirroredIndex
  let b := writeBuf b i3 (inv aFRP)
  b

/-- Embeds `setAllServos` (source lines 314-325), staging-buffer effect: eight
unconditional stores in canonical order, then the commit step. -/
def setAllServos (aFLP aBLP aBRP aFRP aFLL aBLL aBRL aFRL : Int) (b : Buf) : Buf :=
  let b := writeBuf b FRONT_LEFT_PIVOT aFLP
  let b := writeBuf b BACK_LEFT_PIVOT aBLP
  let b := writeBuf b BACK_RIGHT_PIVOT aBRP
  let b := writeBuf b FRONT_RIGHT_PIVOT aFRP
  let b := writeBuf b FRONT_LEFT_LIFT aFLL
  let b := writeBuf b BACK_LEFT_LIFT aBLL
  let b := writeBuf b BACK_RIGHT_LIFT aBRL
  let b := writeBuf b FRONT_RIGHT_LIFT aFRL
  b

/-! ### Synchronization Driver (source lines 327-352)

Both blocking loops have the shape

    do { checkIRInput(); RETURN_IF_STOP; delay(REFRESH_INTERVAL / 1000); }
    while (!update...());

`checkIRInput` (external remote-input collaborator) may set the
process-wide stop flag; `RETURN_IF_STOP` returns from the function when
the flag is set.  We model the flag value observed at the n-th poll as
`stopAt n`, the actuator-advance step as an explicit function
`upd : σ → σ × Bool` returning the new actuator state and whether all
watched actuators reached their target, and we record the externally
visible calls of each iteration as a trace of `LoopEvent`s.  The loop is
given fuel; `none` means the fuel ran out before the loop exited
(the source loop has no timeout and can stall forever). -/

/-- Externally visible steps of one loop iteration: the input poll
(`checkIRInput`), the stop-flag check (`RETURN_IF_STOP`), the tick
delay (`delay(REFRESH_INTERVAL / 1000)`, 20 ms) and the actuator
advance (`update()` / `updateAllServos()`). -/
inductive LoopEvent where
  | poll
  | stopCheck
  | tick
  | advance
  deriving DecidableEq, Repr

/-- The do-while loop shared by `moveOneServoAndCheckInputAndWait` and
`updateAndCheckInputAndWaitForAllServosToStop`.  Result
`some (s, false)` is the canceled early return (state as of the last
completed advance), `some (s, true)` is normal completion, `none` is
fuel exhaustion. -/
def waitLoop {σ : Type} (upd : σ → σ × Bool) (stopAt : Nat → Bool) :
    Nat → Nat → σ → List LoopEvent × Option (σ × Bool)
  | 0, _, _ => ([], none)
  | fuel + 1, n, s =>
    if stopAt n then
      ([.poll, .stopCheck], some (s, false))
    else
      let (s2, done) := upd s
      if done then
        ([.poll, .stopCheck, .tick, .advance], some (s2, true))
      else
        let (t, r) := waitLoop upd stopAt fuel (n + 1) s2
        (.poll :: .stopCheck :: .tick :: .advance :: t, r)

/-- Modelled from the spec: the state the external actuator-easing
collaborator keeps per servo — current angle and last commanded target
angle. -/
structure ServoState where
  pos : Int
  target : Int
  deriving DecidableEq, Repr

/-- Modelled from the spec: the collaborator's non-blocking
`startEaseTo(angle, speed, false)` initializes an interpolation toward
the target; the current angle is untouched. -/
def startEaseTo (s : ServoState) (aDegree : Int) : ServoState :=
  { pos := s.pos, target := aDegree }

/-- Modelled from the spec: the collaborator's `update()` advances the
interpolation by one tick (here: one degree toward the target) and
returns `true` exactly when the target is reached. -/
def servoUpdate (s : ServoState) : ServoState × Bool :=
  let s2 : ServoState :=
    if s.pos < s.target then { s with pos := s.pos + 1 }
    else if s.target < s.pos then { s with pos := s.pos - 1 }
    else s
  (s2, s2.pos = s2.target)

/-- Modelled from the spec: the collaborator's `updateAllServos()`
advances every servo one tick and reports whether all reached target. -/
def updateAllServos (ss : List ServoState) : List ServoState × Bool :=
  let ss2 := ss.map (fun s => (servoUpdate s).1)
  (ss2, ss2.all (fun s => s.pos = s.target))

/-- Embeds `moveOneServoAndCheckInputAndWait` (source lines 331-338):
start a non-blocking ease toward `aDegree`, then run the polling
do-while loop on that single servo. -/
def moveOneServoAndCheckInputAndWait (aDegree : Int) (stopAt : Nat → Bool)
    (fuel : Nat) (s : ServoState) : List LoopEvent × Option (ServoState × Bool) :=
  waitLoop servoUpdate stopAt fuel 0 (startEaseTo s aDegree)

/-- Embeds `updateAndCheckInputAndWaitForAllServosToStop` (source lines
340-346): the polling do-while loop over all servos. -/
def updateAndCheckInputAndWaitForAllServosToStop (stopAt : Nat → Bool)
    (fuel : Nat) (ss : List ServoState) :
    List LoopEvent × Option (List ServoState × Bool) :=
  waitLoop updateAllServos stopAt fuel 0 ss

/-- Loop traces as the source loop can produce them: zero or more
iterations of poll, stop-check, tick, advance, optionally ending with a
poll and a stop-check at which the stop flag was found set (canceled
early return).  In particular every advance is directly preceded by a
poll, a stop-check and a tick, and nothing follows the advance that
completes the motion. -/
def TraceOk : List LoopEvent → Bool
  | [] => true
  | [.poll, .stopCheck] => true
  | .poll :: .stopCheck :: .tick :: .advance :: rest => TraceOk rest
  | _ => false

/-! ### Lift-servo height mapping (source lines 277-283) -/

/-- Modelled from the spec: the Arduino `map(x, in_min, in_max,
out_min, out_max)` linear re-map; C `long` division truncates toward
zero, hence `Int.div`. -/
def arduinoMap (x inMin inMax outMin outMax : Int) : Int :=
  Int.tdiv ((x - inMin) * (outMax - outMin)) (inMax - inMin) + outMin

/-- Embeds `setLiftServoHeight` (source lines 277-283): clamp the height
percentage to 100, map `[0,100]` onto `[LIFT_MAX_ANGLE,
LIFT_MIN_ANGLE]`, and command the lift servo to the resulting angle
(returned here).  The two angle bounds live in the missing
configuration header, so they are parameters. -/
def setLiftServoHeight (liftMaxAngle liftMinAngle : Int) (aHeightPercent : Nat) : Int :=
  let h : Nat := if 100 < aHeightPercent then 100 else aHeightPercent
  arduinoMap (h : Int) 0 100 liftMaxAngle liftMinAngle

/-! ### Diagnostic printing (source lines 81-94) -/

/-- The state the diagnostic routines touch: the working trim table
`sServoTrimAngles`, each registered servo's applied trim offset
(`sServoArray[i]->setTrim`), the speed setting `sServoSpeed`, and the
serial output, modelled as the list of printed lines. -/
structure DiagState where
  trimTable : Nat → Int
  servoTrim : Nat → Int
  speed : Nat
  output : List String

/-- The first `n` iterations of the `printTrimAngles` loop body
(source lines 87-93): print `ServoTrimAngle[i]=` and the table value,
then apply that table value to servo `i` via `setTrim`. -/
def printTrimAnglesLoop (s : DiagState) : Nat → DiagState
  | 0 => s
  | n + 1 =>
    let st := printTrimAnglesLoop s n
    { st with
      output := st.output ++
        ["ServoTrimAngle[" ++ toString n ++ "]=" ++ toString (st.trimTable n)]
      servoTrim := fun j => if j = n then st.trimTable n else st.servoTrim j }

/-- Embeds `printTrimAngles` (source lines 86-94): the loop body for every
servo index `0 ≤ i < NUMBER_OF_SERVOS`. -/
def printTrimAngles (s : DiagState) : DiagState :=
  printTrimAnglesLoop s NUMBER_OF_SERVOS

/-- Embeds `printSpeed` (source lines 81-84): print the speed setting. -/
def printSpeed (s : DiagState) : DiagState :=
  { s with output := s.output ++ [" Speed=" ++ toString s.speed] }

/-! ### Theorems -/

/-- C1: for every canonical pivot role, enumerated direction `d` and
mirror flag `m`, `transformAndSetAllServos` stores the (possibly
inverted) pivot angle at `((c + d*2) mod 8) XOR mask`, with
`mask = 0` unmirrored, `0x2` mirrored on a side direction and `0x6`
mirrored on Forward/Backward; the stored angle is `180 - a` exactly
when mirrored. -/
theorem transformAndSetAllServos_pivot_placement
    (d : Fin 4) (m : Bool) (aFLP aBLP aBRP aFRP aFLL aBLL aBRL aFRL : Int) (b : Buf) :
    let mask : Nat :=
      if m then
        (if d.val = MOVE_DIRECTION_LEFT ∨ d.val = MOVE_DIRECTION_RIGHT then 0x2 else 0x6)
      else 0
    let res := transformAndSetAllServos aFLP aBLP aBRP aFRP aFLL aBLL aBRL aFRL d.val m b
    let adj : Int → Int := fun a => if m then 180 - a else a
    res (((FRONT_LEFT_PIVOT + d.val * 2) % 8) ^^^ mask) = adj aFLP ∧
    res (((BACK_LEFT_PIVOT + d.val * 2) % 8) ^^^ mask) = adj aBLP ∧
    res (((BACK_RIGHT_PIVOT + d.val * 2) % 8) ^^^ mask) = adj aBRP ∧
    res (((FRONT_RIGHT_PIVOT + d.val * 2) % 8) ^^^ mask) = adj aFRP := by
  fin_cases d <;> cases m <;>
    simp [transformAndSetAllServos, writeBuf, getMirrorXorMask, mirrorPivotAngle,
      NUMBER_OF_SERVOS, SERVOS_PER_LEG, LIFT_SERVO_OFFSET,
      FRONT_LEFT_PIVOT, BACK_LEFT_PIVOT, BACK_RIGHT_PIVOT, FRONT_RIGHT_PIVOT,
      MOVE_DIRECTION_LEFT, MOVE_DIRECTION_RIGHT, MOVE_DIRECTION_SIDE_MASK]

/-- C2: for every fixed direction/mirror pair the index transform maps
the four canonical pivot roles to four pairwise distinct physical
indices. -/
theorem transformOneServoIndex_pivot_nodup (d : Fin 4) (m : Bool) :
    ((List.finRange 4).map
      (fun r => transformOneServoIndex (canonicalPivot r) d.val m)).Nodup := by
  fin_cases d <;> cases m <;> decide

/-- C3: for every direction/mirror pair the pivot-only path writes the
same values to the same four (even) pivot slots as the full path with
matching pivot arguments would, and leaves every (odd) lift slot of the
staging buffer unchanged. -/
theorem transformAndSetPivotServos_refines_all
    (d : Fin 4) (m : Bool) (aFLP aBLP aBRP aFRP L1 L2 L3 L4 : Int) (b : Buf) (j : Fin 4) :
    transformAndSetPivotServos aFLP aBLP aBRP aFRP d.val m b (2 * j.val) =
      transformAndSetAllServos aFLP aBLP aBRP aFRP L1 L2 L3 L4 d.val m b (2 * j.val) ∧
    transformAndSetPivotServos aFLP aBLP aBRP aFRP d.val m b (2 * j.val + 1) =
      b (2 * j.val + 1) := by
  fin_cases d <;> cases m <;> fin_cases j <;>
    simp [transformAndSetPivotServos, transformAndSetAllServos, writeBuf,
      getMirrorXorMask, mirrorPivotAngle, NUMBER_OF_SERVOS, SERVOS_PER_LEG,
      LIFT_SERVO_OFFSET, FRONT_LEFT_PIVOT, BACK_LEFT_PIVOT, BACK_RIGHT_PIVOT,
      FRONT_RIGHT_PIVOT, MOVE_DIRECTION_SIDE_MASK]

/-- C6: the mirror angle inversion is involutive, and the lift angles
are stored uninverted at slot (transformed pivot index + 1), for every
direction and mirror flag. -/
theorem mirror_involutive_and_lift_uninverted
    (a : Int) (d : Fin 4) (m : Bool)
    (aFLP aBLP aBRP aFRP aFLL aBLL aBRL aFRL : Int) (b : Buf) :
    let res := transformAndSetAllServos aFLP aBLP aBRP aFRP aFLL aBLL aBRL aFRL d.val m b
    mirrorPivotAngle (mirrorPivotAngle a) = a ∧
    res (transformOneServoIndex FRONT_LEFT_PIVOT d.val m + LIFT_SERVO_OFFSET) = aFLL ∧
    res (transformOneServoIndex BACK_LEFT_PIVOT d.val m + LIFT_SERVO_OFFSET) = aBLL ∧
    res (transformOneServoIndex BACK_RIGHT_PIVOT d.val m + LIFT_SERVO_OFFSET) = aBRL ∧
    res (transformOneServoIndex FRONT_RIGHT_PIVOT d.val m + LIFT_SERVO_OFFSET) = aFRL := by
  refine ⟨by simp [mirrorPivotAngle], ?_⟩
  fin_cases d <;> cases m <;>
    simp [transformAndSetAllServos, transformOneServoIndex, writeBuf,
      getMirrorXorMask, mirrorPivotAngle, NUMBER_OF_SERVOS, SERVOS_PER_LEG,
      LIFT_SERVO_OFFSET, FRONT_LEFT_PIVOT, BACK_LEFT_PIVOT, BACK_RIGHT_PIVOT,
      FRONT_RIGHT_PIVOT, MOVE_DIRECTION_SIDE_MASK]

/-- The value of a slot after a sequence of stores is the value of the
most recent store to that slot, or the initial value if none. -/
theorem applyWrites_eq_last_write (ws : List (Nat × Int)) (b : Buf) (i : Nat) :
    applyWrites b ws i =
      ((ws.reverse.find? (fun p => p.1 == i)).map Prod.snd).getD (b i) := by
  induction ws generalizing b with
  | nil => rfl
  | cons p ws ih =>
    have h1 : applyWrites b (p :: ws) i = applyWrites (writeBuf b p.1 p.2) ws i := rfl
    rw [h1, ih, List.reverse_cons, List.find?_append]
    cases hf : ws.reverse.find? (fun q => q.1 == i) with
    | some q => simp [hf]
    | none =>
      by_cases h : p.1 = i
      · simp [hf, writeBuf, List.find?, h]
      · have hb : (p.1 == i) = false := beq_eq_false_iff_ne.mpr h
        have hi : ¬ i = p.1 := fun hh => h hh.symm
        simp [hf, writeBuf, List.find?, hb, hi]

/-- C5: the staging buffer is last-write-wins — a second store to a slot
replaces the first entirely, a sequence of stores leaves exactly the
most recent value per slot, and each store of `setAllServos` lands
unconditionally in its slot regardless of the prior buffer contents. -/
theorem stagingBuffer_last_write_wins
    (b : Buf) (ws : List (Nat × Int)) (i j : Nat) (v1 v2 : Int)
    (aFLP aBLP aBRP aFRP aFLL aBLL aBRL aFRL : Int) :
    writeBuf (writeBuf b i v1) i v2 j = writeBuf b i v2 j ∧
    applyWrites b ws i =
      ((ws.reverse.find? (fun p => p.1 == i)).map Prod.snd).getD (b i) ∧
    setAllServos aFLP aBLP aBRP aFRP aFLL aBLL aBRL aFRL b 0 = aFLP ∧
    setAllServos aFLP aBLP aBRP aFRP aFLL aBLL aBRL aFRL b 2 = aBLP ∧
    setAllServos aFLP aBLP aBRP aFRP aFLL aBLL aBRL aFRL b 4 = aBRP ∧
    setAllServos aFLP aBLP aBRP aFRP aFLL aBLL aBRL aFRL b 6 = aFRP ∧
    setAllServos aFLP aBLP aBRP aFRP aFLL aBLL aBRL aFRL b 1 = aFLL ∧
    setAllServos aFLP aBLP aBRP aFRP aFLL aBLL aBRL aFRL b 3 = aBLL ∧
    setAllServos aFLP aBLP aBRP aFRP aFLL aBLL aBRL aFRL b 5 = aBRL ∧
    setAllServos aFLP aBLP aBRP aFRP aFLL aBLL aBRL aFRL b 7 = aFRL := by
  refine ⟨?_, applyWrites_eq_last_write ws b i, ?_⟩
  · by_cases h : j = i <;> simp [writeBuf, h]
  · refine ⟨?_, ?_, ?_, ?_, ?_, ?_, ?_, ?_⟩ <;>
      simp [setAllServos, writeBuf, FRONT_LEFT_PIVOT, BACK_LEFT_PIVOT,
        BACK_RIGHT_PIVOT, FRONT_RIGHT_PIVOT, FRONT_LEFT_LIFT, BACK_LEFT_LIFT,
        BACK_RIGHT_LIFT, FRONT_RIGHT_LIFT]

/-- C4: when the stop condition is observed at a poll, both blocking
loops return the canceled outcome at once: the trace of that iteration
is just the poll and the stop check (no tick, no advance), and the
returned actuator state is exactly the state the loop entered the
iteration with — no further writes, no snap to target, no rollback.
Stated for an arbitrary iteration `n` of the generic loop (covering
mid-motion cancellation) and for both driver entry points. -/
theorem cancellation_exits_immediately {σ : Type} (upd : σ → σ × Bool)
    (stopAt : Nat → Bool) (fuel n : Nat) (s : σ)
    (ss : List ServoState) (s1 : ServoState) (aDegree : Int)
    (hn : stopAt n = true) (h0 : stopAt 0 = true) :
    waitLoop upd stopAt (fuel + 1) n s = ([.poll, .stopCheck], some (s, false)) ∧
    updateAndCheckInputAndWaitForAllServosToStop stopAt (fuel + 1) ss =
      ([.poll, .stopCheck], some (ss, false)) ∧
    moveOneServoAndCheckInputAndWait aDegree stopAt (fuel + 1) s1 =
      ([.poll, .stopCheck], some (startEaseTo s1 aDegree, false)) := by
  refine ⟨?_, ?_, ?_⟩ <;>
    simp [waitLoop, updateAndCheckInputAndWaitForAllServosToStop,
      moveOneServoAndCheckInputAndWait, hn, h0]

/-- Closed witness for `cancellation_exits_immediately`: cancel a
two-servo motion at the first poll; neither servo has moved. -/
theorem cancellation_exits_immediately_witness :
    waitLoop servoUpdate (fun _ => true) 4 2 ⟨10, 20⟩ =
      ([.poll, .stopCheck], some (⟨10, 20⟩, false)) ∧
    updateAndCheckInputAndWaitForAllServosToStop (fun _ => true) 4 [⟨0, 90⟩, ⟨50, 40⟩] =
      ([.poll, .stopCheck], some ([⟨0, 90⟩, ⟨50, 40⟩], false)) ∧
    moveOneServoAndCheckInputAndWait 90 (fun _ => true) 4 ⟨30, 30⟩ =
      ([.poll, .stopCheck], some (⟨30, 90⟩, false)) :=
  cancellation_exits_immediately servoUpdate (fun _ => true) 3 2 ⟨10, 20⟩
    [⟨0, 90⟩, ⟨50, 40⟩] ⟨30, 30⟩ 90 rfl rfl

/-- Every trace the polling loop produces has the canonical shape:
iterations of poll, stop-check, tick, advance, optionally ending in a
poll and stop-check at which the loop was canceled. -/
theorem traceOk_waitLoop {σ : Type} (upd : σ → σ × Bool) (stopAt : Nat → Bool) :
    ∀ (fuel n : Nat) (s : σ), TraceOk (waitLoop upd stopAt fuel n s).1 = true := by
  intro fuel
  induction fuel with
  | zero => intro n s; rfl
  | succ fuel ih =>
    intro n s
    by_cases h : stopAt n = true
    · simp [waitLoop, h, TraceOk]
    · rcases hu : upd s with ⟨s2, done⟩
      cases done
      · rcases hw : waitLoop upd stopAt fuel (n + 1) s2 with ⟨t, r⟩
        have ht := ih (n + 1) s2
        rw [hw] at ht
        simp [waitLoop, h, hu, hw, TraceOk, ht]
      · simp [waitLoop, h, hu, TraceOk]

/-- C7 (amended): in every execution of either loop, every
actuator-advance step is directly preceded by an input poll, a
stop-condition check and a tick — so a stop check occurs after every
poll and between any two consecutive advance steps — and the loop only
ever exits right after an advance step (completion) or right after a
poll and stop check (cancellation). -/
theorem loop_checks_before_every_advance {σ : Type} (upd : σ → σ × Bool)
    (stopAt : Nat → Bool) (fuel n : Nat) (s : σ)
    (ss : List ServoState) (s1 : ServoState) (aDegree : Int) :
    TraceOk (waitLoop upd stopAt fuel n s).1 = true ∧
    TraceOk (updateAndCheckInputAndWaitForAllServosToStop stopAt fuel ss).1 = true ∧
    TraceOk (moveOneServoAndCheckInputAndWait aDegree stopAt fuel s1).1 = true :=
  ⟨traceOk_waitLoop upd stopAt fuel n s,
   traceOk_waitLoop updateAllServos stopAt fuel 0 ss,
   traceOk_waitLoop servoUpdate stopAt fuel 0 (startEaseTo s1 aDegree)⟩

/-- C7 counterexample: a motion that completes on the first advance
(one servo already at target, stop never requested) produces the trace
poll, stop-check, tick, advance and exits; the last observed event is
the advance, so no stop-condition check occurs after the final advance
step that completes the motion. -/
theorem loop_no_check_after_final_advance :
    (updateAndCheckInputAndWaitForAllServosToStop (fun _ => false) 5 [⟨90, 90⟩]).1 =
      [.poll, .stopCheck, .tick, .advance] ∧
    (updateAndCheckInputAndWaitForAllServosToStop (fun _ => false) 5 [⟨90, 90⟩]).2 =
      some ([⟨90, 90⟩], true) ∧
    (updateAndCheckInputAndWaitForAllServosToStop (fun _ => false) 5 [⟨90, 90⟩]).1.getLast? =
      some LoopEvent.advance := by
  refine ⟨rfl, rfl, rfl⟩

/-- C10: even when the commanded angle equals the servo's current angle,
the do-while body of the single-servo move runs at least once: the trace
always starts with a poll and a stop check, and — whenever the stop flag
is not already set at the first poll — a full tick delay and the advance
step carrying the first completion check follow before anything else. -/
theorem moveOneServo_body_runs_at_least_once (stopAt : Nat → Bool) (fuel : Nat)
    (s : ServoState) (aDegree : Int) :
    (moveOneServoAndCheckInputAndWait aDegree stopAt (fuel + 1) s).1.take 2 =
      [.poll, .stopCheck] ∧
    (stopAt 0 = false →
      (moveOneServoAndCheckInputAndWait aDegree stopAt (fuel + 1) s).1.take 4 =
        [.poll, .stopCheck, .tick, .advance]) := by
  by_cases h : stopAt 0 = true
  · simp [moveOneServoAndCheckInputAndWait, waitLoop, h]
  · rcases hu : servoUpdate (startEaseTo s aDegree) with ⟨s2, done⟩
    cases done <;>
      simp [moveOneServoAndCheckInputAndWait, waitLoop, h, hu, List.take]

/-- Closed witness for `moveOneServo_body_runs_at_least_once` at a servo
that is already at the requested target angle. -/
theorem moveOneServo_body_runs_at_least_once_witness :
    (moveOneServoAndCheckInputAndWait 90 (fun _ => false) 1 ⟨90, 90⟩).1.take 2 =
      [.poll, .stopCheck] ∧
    (moveOneServoAndCheckInputAndWait 90 (fun _ => false) 1 ⟨90, 90⟩).1.take 4 =
      [.poll, .stopCheck, .tick, .advance] :=
  ⟨(moveOneServo_body_runs_at_least_once (fun _ => false) 0 ⟨90, 90⟩ 90).1,
   (moveOneServo_body_runs_at_least_once (fun _ => false) 0 ⟨90, 90⟩ 90).2 rfl⟩

/-- C8: `setLiftServoHeight` clamps the height percentage to `[0,100]`
(inputs above 100 behave exactly like 100), maps the clamped value
linearly (with C truncating division) from `[0,100]` onto
`[LIFT_MAX_ANGLE, LIFT_MIN_ANGLE]`, and in particular commands
`LIFT_MAX_ANGLE` at 0 and `LIFT_MIN_ANGLE` at every input ≥ 100. -/
theorem setLiftServoHeight_clamps_and_maps (liftMaxAngle liftMinAngle : Int) (h : Nat) :
    setLiftServoHeight liftMaxAngle liftMinAngle h =
      setLiftServoHeight liftMaxAngle liftMinAngle (min h 100) ∧
    setLiftServoHeight liftMaxAngle liftMinAngle 0 = liftMaxAngle ∧
    (100 ≤ h → setLiftServoHeight liftMaxAngle liftMinAngle h = liftMinAngle) ∧
    (h ≤ 100 → setLiftServoHeight liftMaxAngle liftMinAngle h =
      Int.tdiv ((h : Int) * (liftMinAngle - liftMaxAngle)) 100 + liftMaxAngle) := by
  refine ⟨?_, ?_, ?_, ?_⟩
  · by_cases hh : 100 < h
    · simp [setLiftServoHeight, hh, Nat.min_eq_right (Nat.le_of_lt hh)]
    · simp [setLiftServoHeight, hh, Nat.min_eq_left (Nat.le_of_not_lt hh)]
  · simp [setLiftServoHeight, arduinoMap, Int.zero_tdiv]
  · intro hge
    have hcl : (if 100 < h then (100 : Nat) else h) = 100 := by split <;> omega
    simp only [setLiftServoHeight, arduinoMap, hcl]
    norm_num
  · intro hle
    have hcl : (if 100 < h then (100 : Nat) else h) = h := by split <;> omega
    simp only [setLiftServoHeight, arduinoMap, hcl]
    norm_num

/-- Closed witness for `setLiftServoHeight_clamps_and_maps` at the
boundary input 100 (both range hypotheses hold there). -/
theorem setLiftServoHeight_clamps_and_maps_witness :
    setLiftServoHeight 115 29 100 = setLiftServoHeight 115 29 (min 100 100) ∧
    setLiftServoHeight 115 29 0 = 115 ∧
    setLiftServoHeight 115 29 100 = 29 ∧
    setLiftServoHeight 115 29 100 =
      Int.tdiv (((100 : Nat) : Int) * (29 - 115)) 100 + 115 :=
  ⟨(setLiftServoHeight_clamps_and_maps 115 29 100).1,
   (setLiftServoHeight_clamps_and_maps 115 29 100).2.1,
   (setLiftServoHeight_clamps_and_maps 115 29 100).2.2.1 (by norm_num),
   (setLiftServoHeight_clamps_and_maps 115 29 100).2.2.2 (by norm_num)⟩

/-- The `printTrimAngles` loop never touches the working trim table or
the speed setting. -/
theorem printTrimAnglesLoop_preserves_table (s : DiagState) (n : Nat) :
    (printTrimAnglesLoop s n).trimTable = s.trimTable ∧
    (printTrimAnglesLoop s n).speed = s.speed := by
  induction n with
  | zero => exact ⟨rfl, rfl⟩
  | succ n ih => simpa [printTrimAnglesLoop] using ih

/-- Servos whose index the `printTrimAngles` loop has not reached keep
their applied trim offset. -/
theorem printTrimAnglesLoop_servoTrim_ge (s : DiagState) (n k : Nat) (h : n ≤ k) :
    (printTrimAnglesLoop s n).servoTrim k = s.servoTrim k := by
  induction n with
  | zero => rfl
  | succ n ih =>
    have hk : ¬ (k = n) := by omega
    simp [printTrimAnglesLoop, hk, ih (by omega)]

/-- Servos the `printTrimAngles` loop has reached carry the trim value
from the working table. -/
theorem printTrimAnglesLoop_servoTrim_lt (s : DiagState) (n k : Nat) (h : k < n) :
    (printTrimAnglesLoop s n).servoTrim k = s.trimTable k := by
  induction n with
  | zero => omega
  | succ n ih =>
    by_cases hk : k = n
    · subst hk
      have ht := (printTrimAnglesLoop_preserves_table s k).1
      simp [printTrimAnglesLoop, ht]
    · simp [printTrimAnglesLoop, hk, ih (by omega)]

/-- C9 counterexample: starting from a state where servo 0 has applied
trim 5 while the working table holds 0, `printTrimAngles` changes the
servo's applied trim to 0 — the routine is not purely observational. -/
theorem printTrimAngles_not_observational :
    (printTrimAngles
      { trimTable := fun _ => 0, servoTrim := fun _ => 5, speed := 90,
        output := [] }).servoTrim 0 = 0 ∧
    ({ trimTable := fun _ => 0, servoTrim := fun _ => 5, speed := 90,
        output := [] } : DiagState).servoTrim 0 = 5 :=
  ⟨rfl, rfl⟩

/-- C9 (amended): `printSpeed` only appends output; `printTrimAngles`
appends output and leaves the working trim table and the speed
unchanged, but as a side effect applies each working-table trim value
to its actuator, overwriting the actuator's previous trim offset;
actuators beyond the eight registered ones are untouched. -/
theorem diagnostics_effect (s : DiagState) (i : Fin 8) (j : Nat) :
    (printTrimAngles s).trimTable = s.trimTable ∧
    (printTrimAngles s).speed = s.speed ∧
    (printTrimAngles s).servoTrim i.val = s.trimTable i.val ∧
    (printTrimAngles s).servoTrim (8 + j) = s.servoTrim (8 + j) ∧
    (printSpeed s).trimTable = s.trimTable ∧
    (printSpeed s).servoTrim = s.servoTrim ∧
    (printSpeed s).speed = s.speed :=
  ⟨(printTrimAnglesLoop_preserves_table s NUMBER_OF_SERVOS).1,
   (printTrimAnglesLoop_preserves_table s NUMBER_OF_SERVOS).2,
   printTrimAnglesLoop_servoTrim_lt s NUMBER_OF_SERVOS i.val i.isLt,
   printTrimAnglesLoop_servoTrim_ge s NUMBER_OF_SERVOS (8 + j) (by unfold NUMBER_OF_SERVOS; omega),
   rfl, rfl, rfl⟩

end QuadrupedServo
